import Mathlib

/-!
Verification development for the two arcade-game engines of this repository:
the grid snake game (src/games/Snake/Snake.tsx) and the flappy-bird clone
(src/games/Snake/types.ts, which also contains the flappy component).

Modelling conventions:
- JavaScript numbers are modelled as `Int` for grid coordinates and `Nat` for
  scores (all arithmetic performed on them in the source stays in those
  ranges), and as `ℚ` for the continuous flappy physics (every numeric
  constant in the source is a decimal literal, hence rational; float rounding
  is not modelled).
- `Math.random()` draws are modelled as explicit oracle inputs: a list of
  candidate grid cells for the rejection-sampling position generator, a list
  of rationals in `[0,1)` for food-type selection, and a single rational for
  a pipe spawn.  A function whose source loops until the random oracle
  produces an acceptable value returns `Option`, with `none` meaning the
  finite oracle list was exhausted (the source would keep drawing).
- React `setState` updates inside one handler are applied sequentially, so a
  handler is modelled as one pure function from state to state.
-/

namespace SnakeGame

structure Point where
  x : Int
  y : Int
deriving DecidableEq, Repr

inductive Direction where
  | UP
  | DOWN
  | LEFT
  | RIGHT
deriving DecidableEq, Repr

inductive Difficulty where
  | easy
  | normal
  | hard
  | extreme
deriving DecidableEq, Repr

inductive FoodType where
  | apple
  | banana
  | meat
  | berry
deriving DecidableEq, Repr

inductive SnakeColor where
  | green
  | blue
  | purple
  | orange
  | pink
deriving DecidableEq, Repr

structure Food where
  x : Int
  y : Int
  type : FoodType
  points : Nat
deriving DecidableEq, Repr

/-- `export interface Wall extends Point` -/
abbrev Wall := Point

structure GameState where
  snake : List Point
  foods : List Food
  walls : List Wall
  direction : Direction
  nextDirection : Direction
  score : Nat
  highScore : Nat
  isGameOver : Bool
  isPaused : Bool
  difficulty : Difficulty
  gridSize : Int
  snakeColor : SnakeColor
deriving DecidableEq, Repr

def GRID_SIZE : Int := 20

def INITIAL_SNAKE : List Point := [⟨10, 10⟩]

def WALL_SPAWN_SCORE : Nat := 10

def MULTI_FOOD_SCORE : Nat := 5

/-- `FOOD_POINTS` from types.ts. -/
def FOOD_POINTS : FoodType → Nat
  | FoodType.apple => 1
  | FoodType.banana => 2
  | FoodType.meat => 3
  | FoodType.berry => 1

/-- The random oracle: `positions` are the successive outcomes of the
`(Math.floor(Math.random()*GRID_SIZE), Math.floor(Math.random()*GRID_SIZE))`
pair generator inside `getRandomPosition`, and `typeVals` the successive
`Math.random()` draws consumed by `getRandomFoodType`. -/
structure Rng where
  positions : List Point
  typeVals : List ℚ
deriving DecidableEq, Repr

/-- The do-while condition of `getRandomPosition`: the candidate cell is
already taken by a snake segment, a food, or a wall. -/
def occupied (snake : List Point) (foods : List Food) (walls : List Wall)
    (p : Point) : Bool :=
  snake.any (fun s => s.x == p.x && s.y == p.y) ||
  foods.any (fun f => f.x == p.x && f.y == p.y) ||
  walls.any (fun w => w.x == p.x && w.y == p.y)

/-- `getRandomPosition`: rejection sampling over the candidate stream; keeps
drawing while the candidate collides with a snake segment, food, or wall.
Returns the chosen cell and the unconsumed remainder of the stream. -/
def getRandomPosition (snake : List Point) (foods : List Food)
    (walls : List Wall) : List Point → Option (Point × List Point)
  | [] => none
  | c :: cs =>
    if occupied snake foods walls c then getRandomPosition snake foods walls cs
    else some (c, cs)

/-- `getRandomFoodType`: cumulative weights 0.4 / 0.3 / 0.2 / 0.1 over
apple, banana, meat, berry, with apple as the fallthrough default. -/
def getRandomFoodType (r : ℚ) : FoodType :=
  if r < 4/10 then FoodType.apple
  else if r < 7/10 then FoodType.banana
  else if r < 9/10 then FoodType.meat
  else if r < 1 then FoodType.berry
  else FoodType.apple

/-- `createFood`: a random free position plus a random weighted type. -/
def createFood (snake : List Point) (foods : List Food) (walls : List Wall)
    (rng : Rng) : Option (Food × Rng) :=
  match getRandomPosition snake foods walls rng.positions with
  | none => none
  | some (pos, cs) =>
    match rng.typeVals with
    | [] => none
    | r :: rs =>
      let t := getRandomFoodType r
      some ({ x := pos.x, y := pos.y, type := t, points := FOOD_POINTS t },
        { positions := cs, typeVals := rs })

/-- `createWall`: a random free position. -/
def createWall (snake : List Point) (foods : List Food) (walls : List Wall)
    (rng : Rng) : Option (Wall × Rng) :=
  match getRandomPosition snake foods walls rng.positions with
  | none => none
  | some (pos, cs) => some (pos, { rng with positions := cs })

/-- `createBorderWalls`: the four border rows/columns, pushed in source
order (top, bottom, left, right per index). -/
def createBorderWalls : List Wall :=
  (List.range 20).flatMap fun i =>
    [⟨(i : Int), 0⟩, ⟨(i : Int), GRID_SIZE - 1⟩,
     ⟨0, (i : Int)⟩, ⟨GRID_SIZE - 1, (i : Int)⟩]

/-- The `opposites` table used by both input handlers. -/
def opposite : Direction → Direction
  | Direction.UP => Direction.DOWN
  | Direction.DOWN => Direction.UP
  | Direction.LEFT => Direction.RIGHT
  | Direction.RIGHT => Direction.LEFT

/-- The `switch (state.nextDirection)` block of `moveSnake`: one step with
wrap-around modulo `GRID_SIZE` on the moved axis (JS `%` agrees with `tmod`;
all operands here are nonnegative). -/
def moveHead (p : Point) (d : Direction) : Point :=
  match d with
  | Direction.UP => { p with y := (p.y - 1 + GRID_SIZE).tmod GRID_SIZE }
  | Direction.DOWN => { p with y := (p.y + 1).tmod GRID_SIZE }
  | Direction.LEFT => { p with x := (p.x - 1 + GRID_SIZE).tmod GRID_SIZE }
  | Direction.RIGHT => { p with x := (p.x + 1).tmod GRID_SIZE }

/-- The `findIndex` on foods followed by removal of exactly that index
(`filter((_, i) => i !== foodIndex)`): returns the first food on the head
cell together with the list with that one occurrence removed. -/
def extractFirstFood (head : Point) : List Food → Option (Food × List Food)
  | [] => none
  | f :: fs =>
    if f.x == head.x && f.y == head.y then some (f, fs)
    else
      match extractFirstFood head fs with
      | none => none
      | some (g, rest) => some (g, f :: rest)

/-- The `for (let i = newFoods.length; i < foodCount; i++)` top-up loop,
with the iteration count precomputed as fuel: pushes that many fresh foods,
each placed avoiding the snake, the foods accumulated so far, and the
walls. -/
def topUpFoods (newSnake : List Point) (walls : List Wall) :
    Nat → List Food → Rng → Option (List Food × Rng)
  | 0, foods, rng => some (foods, rng)
  | k + 1, foods, rng =>
    match createFood newSnake foods walls rng with
    | none => none
    | some (f, rng') => topUpFoods newSnake walls k (foods ++ [f]) rng'

/-- The food-replenishment step of `moveSnake` after a food was eaten:
once the new score reaches `MULTI_FOOD_SCORE`, top the foods up to
`min(3, floor(newScore / MULTI_FOOD_SCORE))`; below that, push exactly one
replacement food. -/
def replenishFoods (newSnake : List Point) (walls : List Wall)
    (newScore : Nat) (newFoods0 : List Food) (rng : Rng) :
    Option (List Food × Rng) :=
  if MULTI_FOOD_SCORE ≤ newScore then
    topUpFoods newSnake walls
      (min 3 (newScore / MULTI_FOOD_SCORE) - newFoods0.length) newFoods0 rng
  else
    match createFood newSnake newFoods0 walls rng with
    | none => none
    | some (f, rng') => some (newFoods0 ++ [f], rng')

/-- The wall-spawning step of `moveSnake`: outside extreme mode, when the
new score is a positive multiple of `WALL_SPAWN_SCORE`, push one wall placed
on a cell free of the grown snake, the replenished foods, and the existing
walls. -/
def spawnWall (difficulty : Difficulty) (newScore : Nat)
    (newSnake : List Point) (newFoods : List Food) (walls : List Wall)
    (rng : Rng) : Option (List Wall) :=
  if difficulty ≠ Difficulty.extreme ∧ WALL_SPAWN_SCORE ≤ newScore ∧
      newScore % WALL_SPAWN_SCORE = 0 then
    match createWall newSnake newFoods walls rng with
    | none => none
    | some (w, _) => some (walls ++ [w])
  else some walls

/-- `moveSnake`: one logical tick.  The two `setState` calls of the source
(the eating update and the snake/direction commit) are composed into one
resulting state.  `none` only when the random oracle is exhausted (or the
snake list is empty, which the source never constructs). -/
def moveSnake (st : GameState) (rng : Rng) : Option GameState :=
  match st.snake with
  | [] => none
  | h0 :: rest =>
    let head := moveHead h0 st.nextDirection
    if st.difficulty = Difficulty.extreme ∧
        (head.x = 0 ∨ head.x = GRID_SIZE - 1 ∨
         head.y = 0 ∨ head.y = GRID_SIZE - 1) then
      some { st with isGameOver := true }
    else if (h0 :: rest).any (fun s => s.x == head.x && s.y == head.y) ||
        st.walls.any (fun w => w.x == head.x && w.y == head.y) then
      some { st with isGameOver := true }
    else
      let newSnake := head :: h0 :: rest
      match extractFirstFood head st.foods with
      | some (eatenFood, newFoods0) =>
        let newScore := st.score + eatenFood.points
        match replenishFoods newSnake st.walls newScore newFoods0 rng with
        | none => none
        | some (newFoods, rng') =>
          match spawnWall st.difficulty newScore newSnake newFoods st.walls
              rng' with
          | none => none
          | some newWalls =>
            some { st with
              snake := newSnake
              foods := newFoods
              walls := newWalls
              score := newScore
              highScore := max newScore st.highScore
              direction := st.nextDirection }
      | none =>
        some { st with
          snake := newSnake.dropLast
          direction := st.nextDirection }

/-- The shared direction-change logic of `handleKeyDown` and
`handleDirectionClick`: ignored when the game is over; otherwise the request
is accepted (overwriting `nextDirection` only) exactly when it is not the
opposite of the committed `direction`. -/
def handleDirectionInput (s : GameState) (d : Direction) : GameState :=
  if s.isGameOver = true then s
  else if opposite d ≠ s.direction then { s with nextDirection := d }
  else s

/-- The module-level `initialState`, parametrised by the food that the
module-load call `createFood(INITIAL_SNAKE, [], [])` produced. -/
def initialStateWith (f0 : Food) : GameState :=
  { snake := INITIAL_SNAKE
    foods := [f0]
    walls := []
    direction := Direction.RIGHT
    nextDirection := Direction.RIGHT
    score := 0
    highScore := 0
    isGameOver := false
    isPaused := false
    difficulty := Difficulty.normal
    gridSize := GRID_SIZE
    snakeColor := SnakeColor.green }

/-- `resetGame`: spread of the module-level initial state (including its
food), preserving high score, difficulty, and color, with border walls in
extreme mode. -/
def resetGame (f0 : Food) (s : GameState) : GameState :=
  { initialStateWith f0 with
      highScore := s.highScore
      difficulty := s.difficulty
      snakeColor := s.snakeColor
      walls := if s.difficulty = Difficulty.extreme then createBorderWalls
        else [] }

/-- `handleDifficultyChange`. -/
def handleDifficultyChange (f0 : Food) (s : GameState) (d : Difficulty) :
    GameState :=
  { initialStateWith f0 with
      difficulty := d
      highScore := s.highScore
      snakeColor := s.snakeColor
      walls := if d = Difficulty.extreme then createBorderWalls else [] }

/-- `togglePause`. -/
def togglePause (s : GameState) : GameState :=
  { s with isPaused := !s.isPaused }

/-- The color-picker click handler. -/
def setColor (s : GameState) (c : SnakeColor) : GameState :=
  { s with snakeColor := c }

/-- The states reachable from the initial state through the component's
handlers: logical ticks (which the frame loop only runs while the game is
neither over nor paused), direction inputs, resets, difficulty changes,
pause toggles, and color changes.  `f0` is the food created at module
load. -/
inductive Reachable (f0 : Food) : GameState → Prop where
  | init : Reachable f0 (initialStateWith f0)
  | tick (s s' : GameState) (rng : Rng) : Reachable f0 s →
      s.isGameOver = false → s.isPaused = false →
      moveSnake s rng = some s' → Reachable f0 s'
  | input (s : GameState) (d : Direction) : Reachable f0 s →
      Reachable f0 (handleDirectionInput s d)
  | reset (s : GameState) : Reachable f0 s → Reachable f0 (resetGame f0 s)
  | diff (s : GameState) (d : Difficulty) : Reachable f0 s →
      Reachable f0 (handleDifficultyChange f0 s d)
  | pause (s : GameState) : Reachable f0 s → Reachable f0 (togglePause s)
  | color (s : GameState) (c : SnakeColor) : Reachable f0 s →
      Reachable f0 (setColor s c)

/-- The food-count invariant maintained by the replenishment policy: one
food below `MULTI_FOOD_SCORE`, `min(3, floor(score / MULTI_FOOD_SCORE))`
once the score reaches it. -/
def foodInv (s : GameState) : Prop :=
  s.foods.length =
    if s.score < MULTI_FOOD_SCORE then 1
    else min 3 (s.score / MULTI_FOOD_SCORE)

/-- nextDirection is never the exact opposite of the committed direction. -/
def noReversal (s : GameState) : Prop :=
  s.nextDirection ≠ opposite s.direction

/-- Concrete run: the initial state whose food sits one cell right of the
snake; the first tick eats it. -/
def c3St : GameState := initialStateWith ⟨11, 10, FoodType.apple, 1⟩

def c3Rng : Rng := ⟨[⟨0, 0⟩], [0]⟩

def c3Res : GameState :=
  { snake := [⟨11, 10⟩, ⟨10, 10⟩]
    foods := [⟨0, 0, FoodType.apple, 1⟩]
    walls := []
    direction := Direction.RIGHT
    nextDirection := Direction.RIGHT
    score := 1
    highScore := 1
    isGameOver := false
    isPaused := false
    difficulty := Difficulty.normal
    gridSize := GRID_SIZE
    snakeColor := SnakeColor.green }

/-- Concrete run: score 9, a 3-point meat one cell right of the head; the
tick takes the score from 9 to 12, crossing 10 without landing on it. -/
def wallCexSt : GameState :=
  { snake := [⟨10, 10⟩, ⟨9, 10⟩, ⟨8, 10⟩, ⟨7, 10⟩]
    foods := [⟨11, 10, FoodType.meat, 3⟩]
    walls := []
    direction := Direction.RIGHT
    nextDirection := Direction.RIGHT
    score := 9
    highScore := 9
    isGameOver := false
    isPaused := false
    difficulty := Difficulty.normal
    gridSize := GRID_SIZE
    snakeColor := SnakeColor.green }

def wallCexRng : Rng := ⟨[⟨0, 0⟩, ⟨1, 1⟩], [0, 0]⟩

def wallCexRes : GameState :=
  { snake := [⟨11, 10⟩, ⟨10, 10⟩, ⟨9, 10⟩, ⟨8, 10⟩, ⟨7, 10⟩]
    foods := [⟨0, 0, FoodType.apple, 1⟩, ⟨1, 1, FoodType.apple, 1⟩]
    walls := []
    direction := Direction.RIGHT
    nextDirection := Direction.RIGHT
    score := 12
    highScore := 12
    isGameOver := false
    isPaused := false
    difficulty := Difficulty.normal
    gridSize := GRID_SIZE
    snakeColor := SnakeColor.green }

/-- Concrete run: score 9, a 1-point apple one cell right of the head; the
tick lands the score exactly on 10 and a wall spawns. -/
def wallSt : GameState :=
  { snake := [⟨10, 10⟩]
    foods := [⟨11, 10, FoodType.apple, 1⟩]
    walls := []
    direction := Direction.RIGHT
    nextDirection := Direction.RIGHT
    score := 9
    highScore := 9
    isGameOver := false
    isPaused := false
    difficulty := Difficulty.normal
    gridSize := GRID_SIZE
    snakeColor := SnakeColor.green }

def wallRng : Rng := ⟨[⟨0, 0⟩, ⟨1, 1⟩, ⟨2, 2⟩], [0, 0]⟩

def wallRes : GameState :=
  { snake := [⟨11, 10⟩, ⟨10, 10⟩]
    foods := [⟨0, 0, FoodType.apple, 1⟩, ⟨1, 1, FoodType.apple, 1⟩]
    walls := [⟨2, 2⟩]
    direction := Direction.RIGHT
    nextDirection := Direction.RIGHT
    score := 10
    highScore := 10
    isGameOver := false
    isPaused := false
    difficulty := Difficulty.normal
    gridSize := GRID_SIZE
    snakeColor := SnakeColor.green }

/-- Concrete run: the head at the right edge `x = GRID_SIZE - 1` moving
RIGHT wraps to `x = 0`. -/
def wrapSt : GameState :=
  { snake := [⟨19, 10⟩]
    foods := [⟨5, 5, FoodType.apple, 1⟩]
    walls := []
    direction := Direction.RIGHT
    nextDirection := Direction.RIGHT
    score := 0
    highScore := 0
    isGameOver := false
    isPaused := false
    difficulty := Difficulty.normal
    gridSize := GRID_SIZE
    snakeColor := SnakeColor.green }

def wrapRes : GameState := { wrapSt with snake := [⟨0, 10⟩] }

/-- Concrete run: the head moves DOWN onto a 2-point banana. -/
def growthSt : GameState :=
  { snake := [⟨4, 4⟩]
    foods := [⟨4, 5, FoodType.banana, 2⟩]
    walls := []
    direction := Direction.DOWN
    nextDirection := Direction.DOWN
    score := 0
    highScore := 0
    isGameOver := false
    isPaused := false
    difficulty := Difficulty.normal
    gridSize := GRID_SIZE
    snakeColor := SnakeColor.green }

def growthRng : Rng := ⟨[⟨9, 9⟩], [1/2]⟩

def growthRes : GameState :=
  { snake := [⟨4, 5⟩, ⟨4, 4⟩]
    foods := [⟨9, 9, FoodType.banana, 2⟩]
    walls := []
    direction := Direction.DOWN
    nextDirection := Direction.DOWN
    score := 2
    highScore := 2
    isGameOver := false
    isPaused := false
    difficulty := Difficulty.normal
    gridSize := GRID_SIZE
    snakeColor := SnakeColor.green }

/-- Concrete run: the head moves RIGHT into a wall cell: terminal. -/
def frameSt : GameState :=
  { snake := [⟨5, 5⟩]
    foods := [⟨1, 1, FoodType.apple, 1⟩]
    walls := [⟨6, 5⟩]
    direction := Direction.RIGHT
    nextDirection := Direction.RIGHT
    score := 3
    highScore := 7
    isGameOver := false
    isPaused := false
    difficulty := Difficulty.normal
    gridSize := GRID_SIZE
    snakeColor := SnakeColor.green }

def frameRes : GameState := { frameSt with isGameOver := true }

end SnakeGame

namespace FlappyGame

inductive Difficulty where
  | easy
  | normal
  | hard
deriving DecidableEq, Repr

/-- The bird; the source field `rotation` (a rendering angle derived from
velocity) is named `rot` here. -/
structure Bird where
  y : ℚ
  velocity : ℚ
  rot : ℚ
deriving DecidableEq, Repr

structure Pipe where
  x : ℚ
  topHeight : ℚ
  passed : Bool
deriving DecidableEq, Repr

structure GameState where
  bird : Bird
  pipes : List Pipe
  score : Nat
  highScore : Nat
  isPlaying : Bool
  isGameOver : Bool
  difficulty : Difficulty
deriving DecidableEq, Repr

def CANVAS_WIDTH : ℚ := 360

def CANVAS_HEIGHT : ℚ := 640

def BIRD_WIDTH : ℚ := 34

def BIRD_HEIGHT : ℚ := 24

def PIPE_WIDTH : ℚ := 52

def PIPE_GAP : ℚ := 160

def GRAVITY : ℚ := 4/10

def FLAP_STRENGTH : ℚ := -7

def PIPE_SPEED : ℚ := 2

structure Settings where
  pipeGap : ℚ
  pipeInterval : ℚ
  gravity : ℚ
deriving DecidableEq, Repr

def DIFFICULTY_SETTINGS : Difficulty → Settings
  | Difficulty.easy =>
    { pipeGap := PIPE_GAP + 40, pipeInterval := 180, gravity := GRAVITY * (8/10) }
  | Difficulty.normal =>
    { pipeGap := PIPE_GAP, pipeInterval := 150, gravity := GRAVITY }
  | Difficulty.hard =>
    { pipeGap := PIPE_GAP - 20, pipeInterval := 120, gravity := GRAVITY * (12/10) }

/-- The exact rational value of the IEEE-754 double `Math.PI`
(only used inside the clamp bounds of the bird's rendering angle). -/
def piQ : ℚ := 884279719003555 / 281474976710656

/-- `Math.max` on rationals (kernel-computable). -/
def ratMax (a b : ℚ) : ℚ := if a ≤ b then b else a

/-- `Math.min` on rationals (kernel-computable). -/
def ratMin (a b : ℚ) : ℚ := if a ≤ b then a else b

/-- `createPipe`: spawns at the right edge with
`topHeight = Math.random() * (CANVAS_HEIGHT - PIPE_GAP - 100) + 50`.
Note that the source uses the constant `PIPE_GAP`, not the difficulty's
gap, here. -/
def createPipe (r : ℚ) : Pipe :=
  { x := CANVAS_WIDTH
    topHeight := r * (CANVAS_HEIGHT - PIPE_GAP - 100) + 50
    passed := false }

def initialBird : Bird := { y := CANVAS_HEIGHT / 2, velocity := 0, rot := 0 }

def initialState : GameState :=
  { bird := initialBird
    pipes := []
    score := 0
    highScore := 0
    isPlaying := false
    isGameOver := false
    difficulty := Difficulty.normal }

/-- An axis-aligned box, as computed inline in `update`. -/
structure Box where
  left : ℚ
  right : ℚ
  top : ℚ
  bottom : ℚ
deriving DecidableEq, Repr

/-- The `for (const pipe of newState.pipes)` loop of `update`: walks the
pipes in order; on a collision it stops, keeping the `passed` mutations and
score increments made so far and the remaining pipes untouched (the source
mutates the array in place and returns).  Returns the pipes, the
accumulated score, and whether a collision occurred. -/
def processPipes (birdBox : Box) (gap : ℚ) :
    List Pipe → Nat → List Pipe × Nat × Bool
  | [], score => ([], score, false)
  | p :: rest, score =>
    if (birdBox.right > p.x ∧ birdBox.left < p.x + PIPE_WIDTH) ∧
        (birdBox.top < p.topHeight ∨ birdBox.bottom > p.topHeight + gap) then
      (p :: rest, score, true)
    else if p.passed = false ∧ p.x + PIPE_WIDTH < CANVAS_WIDTH / 4 then
      match processPipes birdBox gap rest (score + 1) with
      | (rest', score', c) => ({ p with passed := true } :: rest', score', c)
    else
      match processPipes birdBox gap rest score with
      | (rest', score', c) => (p :: rest', score', c)

/-- `update`: one animation-frame tick.  `now` models `Date.now()`,
`lastPipe` the `lastPipeRef` cell (returned updated), and `r` the
`Math.random()` draw consumed if a pipe spawns this frame. -/
def update (s : GameState) (now lastPipe r : ℚ) : GameState × ℚ :=
  if s.isPlaying = false ∨ s.isGameOver = true then (s, lastPipe)
  else
    let settings := DIFFICULTY_SETTINGS s.difficulty
    let newBird : Bird :=
      { y := s.bird.y + s.bird.velocity
        velocity := s.bird.velocity + settings.gravity
        rot := ratMin (piQ / 2) (ratMax (-(piQ / 4)) (s.bird.velocity * (1/10))) }
    let movedPipes :=
      (s.pipes.map (fun p => { p with x := p.x - PIPE_SPEED })).filter
        (fun p => decide (p.x + PIPE_WIDTH > 0))
    let pipes1 := if settings.pipeInterval < now - lastPipe then
        movedPipes ++ [createPipe r]
      else movedPipes
    let lastPipe1 := if settings.pipeInterval < now - lastPipe then now
      else lastPipe
    let birdBox : Box :=
      { left := CANVAS_WIDTH / 4 - BIRD_WIDTH / 2
        right := CANVAS_WIDTH / 4 + BIRD_WIDTH / 2
        top := newBird.y - BIRD_HEIGHT / 2
        bottom := newBird.y + BIRD_HEIGHT / 2 }
    if birdBox.bottom > CANVAS_HEIGHT ∨ birdBox.top < 0 then
      ({ s with
          bird := newBird
          pipes := pipes1
          isGameOver := true
          highScore := max s.score s.highScore }, lastPipe1)
    else
      match processPipes birdBox settings.pipeGap pipes1 s.score with
      | (pipes2, score2, collided) =>
        if collided then
          ({ s with
              bird := newBird
              pipes := pipes2
              score := score2
              isGameOver := true
              highScore := max s.score s.highScore }, lastPipe1)
        else
          ({ s with bird := newBird, pipes := pipes2, score := score2 },
            lastPipe1)

/-- `startGame` (it also resets `lastPipeRef`, which lives outside the
state record). -/
def startGame (s : GameState) : GameState :=
  { initialState with
      isPlaying := true
      highScore := s.highScore
      difficulty := s.difficulty }

/-- `handleClick`: restart when game over; otherwise (starting first if
idle) set the bird's velocity to exactly `FLAP_STRENGTH`. -/
def handleClick (s : GameState) : GameState :=
  if s.isGameOver = true then startGame s
  else if s.isPlaying = false then
    let s1 := startGame s
    { s1 with bird := { s1.bird with velocity := FLAP_STRENGTH } }
  else
    { s with bird := { s.bird with velocity := FLAP_STRENGTH } }

/-- The Flappy engine just after starting: playing, bird centred at
`y = CANVAS_HEIGHT / 2 = 320` with velocity 0. -/
def flappyStart : GameState := { initialState with isPlaying := true }

end FlappyGame

namespace SnakeGame

/-- C5: a Snake direction input is accepted (overwriting `nextDirection`,
which is applied only by the next tick) exactly when it is not the opposite
of the committed `direction`; with `direction = RIGHT` a LEFT input leaves
`nextDirection` unchanged while a DOWN input sets it to DOWN; the committed
`direction` is never changed by input handling. -/
theorem snake_reversal_guard (st : GameState) (d : Direction)
    (hplay : st.isGameOver = false) :
    (handleDirectionInput st d).direction = st.direction ∧
    ((handleDirectionInput st d).nextDirection =
      if opposite d = st.direction then st.nextDirection else d) ∧
    (st.direction = Direction.RIGHT →
      (handleDirectionInput st Direction.LEFT).nextDirection =
        st.nextDirection ∧
      (handleDirectionInput st Direction.DOWN).nextDirection =
        Direction.DOWN) := by
  refine ⟨?_, ?_, fun hdir => ⟨?_, ?_⟩⟩ <;>
    simp [handleDirectionInput, hplay, opposite] <;>
    split_ifs <;> simp_all [opposite]

/-- Witness for `snake_reversal_guard` at the initial state (which faces
RIGHT): LEFT is ignored, DOWN is accepted. -/
theorem snake_reversal_guard_witness :
    (handleDirectionInput (initialStateWith ⟨5, 5, FoodType.apple, 1⟩)
      Direction.DOWN).direction = Direction.RIGHT ∧
    (handleDirectionInput (initialStateWith ⟨5, 5, FoodType.apple, 1⟩)
      Direction.LEFT).nextDirection = Direction.RIGHT ∧
    (handleDirectionInput (initialStateWith ⟨5, 5, FoodType.apple, 1⟩)
      Direction.DOWN).nextDirection = Direction.DOWN := by
  obtain ⟨h1, -, h3⟩ :=
    snake_reversal_guard (initialStateWith ⟨5, 5, FoodType.apple, 1⟩)
      Direction.DOWN (by decide)
  obtain ⟨h4, h5⟩ := h3 (by decide)
  exact ⟨h1.trans (by decide), h4.trans (by decide), h5⟩

end SnakeGame

namespace FlappyGame

/-- C7: while playing and not game over, a flap sets the bird's velocity to
exactly `FLAP_STRENGTH = -7` (replacing, not adding to, the current
velocity) and leaves `y` unchanged at that instant. -/
theorem flappy_flap_impulse (s : GameState) (hp : s.isPlaying = true)
    (hg : s.isGameOver = false) :
    (handleClick s).bird.velocity = FLAP_STRENGTH ∧
    FLAP_STRENGTH = -7 ∧
    (handleClick s).bird.y = s.bird.y := by
  simp [handleClick, hp, hg, FLAP_STRENGTH]

/-- Witness for `flappy_flap_impulse` at a bird already falling with
velocity 5: the flap overwrites it with -7. -/
theorem flappy_flap_impulse_witness :
    (handleClick { initialState with
        isPlaying := true
        bird := { y := 100, velocity := 5, rot := 0 } }).bird.velocity
      = -7 ∧
    (handleClick { initialState with
        isPlaying := true
        bird := { y := 100, velocity := 5, rot := 0 } }).bird.y = 100 := by
  obtain ⟨h1, h2, h3⟩ := flappy_flap_impulse { initialState with
      isPlaying := true
      bird := { y := 100, velocity := 5, rot := 0 } } rfl rfl
  exact ⟨h1.trans h2, h3⟩

/-- C8 counterexample: on easy difficulty the gap is 200, so the claimed
interval is `[50, 640 - 200 - 50] = [50, 390]`; but `createPipe` always uses
the constant `PIPE_GAP = 160`, and the admissible draw `r = 9/10` produces
`topHeight = 392 > 390`. -/
theorem flappy_pipe_spawn_cex :
    (createPipe (9/10)).topHeight = 392 ∧
    CANVAS_HEIGHT - (DIFFICULTY_SETTINGS Difficulty.easy).pipeGap - 50
      = 390 ∧
    (0 : ℚ) ≤ 9/10 ∧ (9 : ℚ)/10 < 1 ∧
    ¬ (createPipe (9/10)).topHeight ≤
        CANVAS_HEIGHT - (DIFFICULTY_SETTINGS Difficulty.easy).pipeGap - 50 := by
  refine ⟨?_, ?_, by norm_num, by norm_num, ?_⟩ <;>
    norm_num [createPipe, CANVAS_HEIGHT, PIPE_GAP, DIFFICULTY_SETTINGS]

/-- C8 (amended): for every difficulty and every random draw `r ∈ [0,1)`, a
newly spawned pipe has `x = CANVAS_WIDTH` and a `topHeight` in
`[50, CANVAS_HEIGHT - PIPE_GAP - 50]`, where `PIPE_GAP = 160` is the
constant normal gap used regardless of the selected difficulty. -/
theorem flappy_pipe_spawn_range (r : ℚ) (h0 : 0 ≤ r) (h1 : r < 1) :
    (createPipe r).x = CANVAS_WIDTH ∧
    (createPipe r).passed = false ∧
    50 ≤ (createPipe r).topHeight ∧
    (createPipe r).topHeight ≤ CANVAS_HEIGHT - PIPE_GAP - 50 := by
  refine ⟨rfl, rfl, ?_, ?_⟩ <;>
    · simp only [createPipe, CANVAS_HEIGHT, PIPE_GAP]
      nlinarith

/-- Witness for `flappy_pipe_spawn_range` at `r = 1/2`. -/
theorem flappy_pipe_spawn_range_witness :
    (createPipe (1/2)).x = CANVAS_WIDTH ∧
    (createPipe (1/2)).passed = false ∧
    50 ≤ (createPipe (1/2)).topHeight ∧
    (createPipe (1/2)).topHeight ≤ CANVAS_HEIGHT - PIPE_GAP - 50 :=
  flappy_pipe_spawn_range (1/2) (by norm_num) (by norm_num)

/-- One concrete tick of `update` from the freshly started state. -/
lemma update_flappyStart_eval :
    update flappyStart 0 0 0 =
      ({ flappyStart with bird := { y := 320, velocity := 2/5, rot := 0 } },
        0) := by
  rw [update]
  norm_num [flappyStart, initialState, initialBird, DIFFICULTY_SETTINGS,
    GRAVITY, CANVAS_WIDTH, CANVAS_HEIGHT, BIRD_WIDTH, BIRD_HEIGHT, PIPE_SPEED,
    ratMin, ratMax, piQ, processPipes]

/-- C2 counterexample: starting with the bird at `y = 320`, velocity 0,
normal difficulty, one tick of `update` yields velocity `0.4` and `y = 320`
but rotation `0`, not `≈ 0.04`: the source computes `y` and the rotation
from the previous tick's velocity (a simultaneous update of the bird
record), so the claimed sequential order does not hold. -/
theorem flappy_first_tick_cex :
    (update flappyStart 0 0 0).1.bird =
      { y := 320, velocity := 2/5, rot := 0 } ∧
    ((2 : ℚ)/5) * (1/10) = 4/100 ∧
    ¬ (update flappyStart 0 0 0).1.bird.rot = 4/100 := by
  rw [update_flappyStart_eval]
  norm_num

/-- C2 (amended): starting the Flappy engine with the bird at `y = 320`,
velocity 0, normal difficulty, one tick of `update` yields velocity `0.4`,
`y = 320`, and rotation `0`; all three bird components are computed from the
pre-tick velocity (velocity' = velocity + gravity, y' = y + velocity,
rotation' = clamp of velocity * 0.1), not in the sequential order the claim
states. -/
theorem flappy_first_tick_amended :
    (update flappyStart 0 0 0).1.bird.y = 320 ∧
    (update flappyStart 0 0 0).1.bird.velocity = 4/10 ∧
    (update flappyStart 0 0 0).1.bird.rot = 0 ∧
    (update flappyStart 0 0 0).1.bird.rot =
      ratMin (piQ / 2)
        (ratMax (-(piQ / 4)) (flappyStart.bird.velocity * (1/10))) := by
  rw [update_flappyStart_eval]
  norm_num [flappyStart, initialState, initialBird, ratMin, ratMax, piQ]

end FlappyGame

namespace SnakeGame

/-- A cell chosen by the rejection-sampling loop is free of snake, foods,
and walls. -/
lemma getRandomPosition_free {snake : List Point} {foods : List Food}
    {walls : List Wall} :
    ∀ {cands : List Point} {p : Point} {rest : List Point},
      getRandomPosition snake foods walls cands = some (p, rest) →
      occupied snake foods walls p = false := by
  intro cands
  induction cands with
  | nil => intro p rest h; cases h
  | cons c cs ih =>
    intro p rest h
    rw [getRandomPosition] at h
    by_cases hc : occupied snake foods walls c
    · rw [if_pos hc] at h
      exact ih h
    · rw [if_neg hc] at h
      simp only [Option.some.injEq, Prod.mk.injEq] at h
      obtain ⟨h1, -⟩ := h
      subst h1
      simpa using hc

/-- A spawned wall sits on a cell free of the snake, the foods, and the
existing walls it was checked against. -/
lemma createWall_free {snake : List Point} {foods : List Food}
    {walls : List Wall} {rng : Rng} {w : Wall} {rng' : Rng}
    (h : createWall snake foods walls rng = some (w, rng')) :
    occupied snake foods walls w = false := by
  rw [createWall] at h
  split at h
  · cases h
  · next pos cs heq =>
    simp only [Option.some.injEq, Prod.mk.injEq] at h
    obtain ⟨h1, -⟩ := h
    subst h1
    exact getRandomPosition_free heq

/-- A spawned food sits on a cell free of the snake, the foods, and the
walls it was checked against. -/
lemma createFood_free {snake : List Point} {foods : List Food}
    {walls : List Wall} {rng : Rng} {f : Food} {rng' : Rng}
    (h : createFood snake foods walls rng = some (f, rng')) :
    occupied snake foods walls ⟨f.x, f.y⟩ = false := by
  rw [createFood] at h
  split at h
  · cases h
  · next pos cs heq =>
    split at h
    · cases h
    · simp only [Option.some.injEq, Prod.mk.injEq] at h
      obtain ⟨h1, -⟩ := h
      subst h1
      simpa using getRandomPosition_free heq

/-- The top-up loop adds exactly its fuel many foods. -/
lemma topUpFoods_length (newSnake : List Point) (walls : List Wall) :
    ∀ (k : Nat) (foods : List Food) (rng : Rng) (res : List Food × Rng),
      topUpFoods newSnake walls k foods rng = some res →
      res.1.length = foods.length + k := by
  intro k
  induction k with
  | zero =>
    intro foods rng res h
    rw [topUpFoods] at h
    simp only [Option.some.injEq] at h
    subst h
    simp
  | succ k ih =>
    intro foods rng res h
    rw [topUpFoods] at h
    split at h
    · cases h
    · next f rng' heq =>
      have := ih (foods ++ [f]) rng' res h
      simp only [List.length_append, List.length_cons, List.length_nil] at this
      omega

/-- Removing the first food on the head cell shortens the list by one. -/
lemma extractFirstFood_length {head : Point} :
    ∀ {l : List Food} {f : Food} {rest : List Food},
      extractFirstFood head l = some (f, rest) →
      rest.length + 1 = l.length := by
  intro l
  induction l with
  | nil => intro f rest h; cases h
  | cons a as ih =>
    intro f rest h
    rw [extractFirstFood] at h
    split at h
    · simp only [Option.some.injEq, Prod.mk.injEq] at h
      obtain ⟨-, h2⟩ := h
      subst h2
      simp
    · split at h
      · cases h
      · next g grest heq =>
        simp only [Option.some.injEq, Prod.mk.injEq] at h
        obtain ⟨-, h2⟩ := h
        subst h2
        have := ih heq
        simp only [List.length_cons]
        omega

/-- Length of the replenished food list, in both score regimes. -/
lemma replenishFoods_length {newSnake : List Point} {walls : List Wall}
    {newScore : Nat} {newFoods0 : List Food} {rng : Rng}
    {newFoods : List Food} {rng' : Rng}
    (h : replenishFoods newSnake walls newScore newFoods0 rng
      = some (newFoods, rng')) :
    (MULTI_FOOD_SCORE ≤ newScore →
      newFoods.length = newFoods0.length +
        (min 3 (newScore / MULTI_FOOD_SCORE) - newFoods0.length)) ∧
    (newScore < MULTI_FOOD_SCORE →
      newFoods.length = newFoods0.length + 1) := by
  rw [replenishFoods] at h
  split at h
  · next hge =>
    refine ⟨fun _ => ?_, fun hlt => absurd hge (by omega)⟩
    exact topUpFoods_length _ _ _ _ _ _ h
  · next hlt =>
    refine ⟨fun hge => absurd hge hlt, fun _ => ?_⟩
    split at h
    · cases h
    · simp only [Option.some.injEq, Prod.mk.injEq] at h
      obtain ⟨h1, -⟩ := h
      subst h1
      simp

/-- The wall-spawning step either leaves the walls unchanged (when its
condition fails) or appends exactly one wall on a free cell (when it
holds). -/
lemma spawnWall_cases {d : Difficulty} {newScore : Nat}
    {newSnake : List Point} {newFoods : List Food} {walls : List Wall}
    {rng : Rng} {newWalls : List Wall}
    (h : spawnWall d newScore newSnake newFoods walls rng = some newWalls) :
    (¬(d ≠ Difficulty.extreme ∧ WALL_SPAWN_SCORE ≤ newScore ∧
        newScore % WALL_SPAWN_SCORE = 0) ∧ newWalls = walls) ∨
    ((d ≠ Difficulty.extreme ∧ WALL_SPAWN_SCORE ≤ newScore ∧
        newScore % WALL_SPAWN_SCORE = 0) ∧
      ∃ w, newWalls = walls ++ [w] ∧
        occupied newSnake newFoods walls w = false) := by
  rw [spawnWall] at h
  split at h
  · next hcond =>
    right
    refine ⟨hcond, ?_⟩
    split at h
    · cases h
    · next w rng' heq =>
      simp only [Option.some.injEq] at h
      subst h
      exact ⟨w, rfl, createWall_free heq⟩
  · next hcond =>
    left
    simp only [Option.some.injEq] at h
    subst h
    exact ⟨hcond, rfl⟩

end SnakeGame

namespace SnakeGame

/-- A successful tick requires a nonempty snake. -/
lemma moveSnake_snake_cons {st : GameState} {rng : Rng} {st' : GameState}
    (hmove : moveSnake st rng = some st') :
    ∃ p t, st.snake = p :: t := by
  rw [moveSnake] at hmove
  split at hmove
  · cases hmove
  · next p t heq => exact ⟨p, t, heq⟩

/-- A tick that turns the game-over flag on changes nothing else: the
colliding head is not prepended, no food is eaten, no wall moves. -/
lemma moveSnake_gameOver_frame {st : GameState} {rng : Rng} {st' : GameState}
    (hmove : moveSnake st rng = some st')
    (h0 : st.isGameOver = false) (h1 : st'.isGameOver = true) :
    st' = { st with isGameOver := true } := by
  simp only [moveSnake] at hmove
  split at hmove
  · cases hmove
  · repeat' split at hmove
    all_goals
      first
        | exact Option.noConfusion hmove
        | (obtain rfl := Option.some.inj hmove
           first
             | rfl
             | simp [h0] at h1)

/-- Every successful tick keeps `nextDirection` and either keeps `direction`
(terminal collision) or commits `direction := nextDirection`. -/
lemma moveSnake_dirs {st : GameState} {rng : Rng} {st' : GameState}
    (hmove : moveSnake st rng = some st') :
    st'.nextDirection = st.nextDirection ∧
    (st'.direction = st.direction ∨ st'.direction = st.nextDirection) := by
  simp only [moveSnake] at hmove
  split at hmove
  · cases hmove
  · repeat' split at hmove
    all_goals
      first
        | exact Option.noConfusion hmove
        | (obtain rfl := Option.some.inj hmove
           exact ⟨rfl, Or.inl rfl⟩)
        | (obtain rfl := Option.some.inj hmove
           exact ⟨rfl, Or.inr rfl⟩)

/-- Shape of a non-terminal tick: the moved head is prepended; either no
food sat on it (tail popped, nothing else changes) or the first food on it
is eaten (score, high score, foods, and possibly walls updated). -/
lemma moveSnake_alive_cases {st : GameState} {rng : Rng} {st' : GameState}
    {p : Point} {t : List Point}
    (hsnake : st.snake = p :: t)
    (hmove : moveSnake st rng = some st')
    (halive : st'.isGameOver = false) :
    (extractFirstFood (moveHead p st.nextDirection) st.foods = none ∧
      st' = { st with
        snake := (moveHead p st.nextDirection :: p :: t).dropLast
        direction := st.nextDirection }) ∨
    (∃ f newFoods0 newFoods rng' newWalls,
      extractFirstFood (moveHead p st.nextDirection) st.foods
        = some (f, newFoods0) ∧
      replenishFoods (moveHead p st.nextDirection :: p :: t) st.walls
        (st.score + f.points) newFoods0 rng = some (newFoods, rng') ∧
      spawnWall st.difficulty (st.score + f.points)
        (moveHead p st.nextDirection :: p :: t) newFoods st.walls rng'
        = some newWalls ∧
      st' = { st with
        snake := moveHead p st.nextDirection :: p :: t
        foods := newFoods
        walls := newWalls
        score := st.score + f.points
        highScore := max (st.score + f.points) st.highScore
        direction := st.nextDirection }) := by
  simp only [moveSnake, hsnake] at hmove
  split at hmove
  · exfalso
    simp only [Option.some.injEq] at hmove
    subst hmove
    simp at halive
  · split at hmove
    · exfalso
      simp only [Option.some.injEq] at hmove
      subst hmove
      simp at halive
    · split at hmove
      · next f newFoods0 heat =>
        right
        split at hmove
        · cases hmove
        · next newFoods rng' hrep =>
          split at hmove
          · cases hmove
          · next newWalls hwall =>
            simp only [Option.some.injEq] at hmove
            subst hmove
            exact ⟨f, newFoods0, newFoods, rng', newWalls, heat, hrep,
              hwall, rfl⟩
      · next hnone =>
        left
        simp only [Option.some.injEq] at hmove
        subst hmove
        exact ⟨hnone, rfl⟩

end SnakeGame

namespace SnakeGame

/-- C10: when at tick ends in terminal collision (self, wall, or
extreme-mode border), the resulting state differs from the pre-tick state
only in `isGameOver` becoming true: snake, foods, walls, score, high score,
direction, and nextDirection are all untouched (the colliding head is never
prepended and no food is consumed). -/
theorem snake_terminal_frame (st st' : GameState) (rng : Rng)
    (hmove : moveSnake st rng = some st')
    (h0 : st.isGameOver = false) (h1 : st'.isGameOver = true) :
    st' = { st with isGameOver := true } :=
  moveSnake_gameOver_frame hmove h0 h1

/-- C4: on a non-terminal tick in any (non-extreme) difficulty the new head
is the old head moved one cell with wrap-around modulo `GRID_SIZE` on each
axis; in particular RIGHT from `x = GRID_SIZE - 1` lands on `x = 0`, LEFT
from `x = 0` on `x = GRID_SIZE - 1`, DOWN from `y = GRID_SIZE - 1` on
`y = 0`, and UP from `y = 0` on `y = GRID_SIZE - 1`. -/
theorem snake_wrap_around (st st' : GameState) (rng : Rng) (p : Point)
    (t : List Point)
    (_hdiff : st.difficulty ≠ Difficulty.extreme)
    (hsnake : st.snake = p :: t)
    (hmove : moveSnake st rng = some st')
    (halive : st'.isGameOver = false) :
    st'.snake.head? = some (moveHead p st.nextDirection) ∧
    (∀ z, moveHead ⟨GRID_SIZE - 1, z⟩ Direction.RIGHT = ⟨0, z⟩) ∧
    (∀ z, moveHead ⟨0, z⟩ Direction.LEFT = ⟨GRID_SIZE - 1, z⟩) ∧
    (∀ z, moveHead ⟨z, GRID_SIZE - 1⟩ Direction.DOWN = ⟨z, 0⟩) ∧
    (∀ z, moveHead ⟨z, 0⟩ Direction.UP = ⟨z, GRID_SIZE - 1⟩) := by
  refine ⟨?_, ?_, ?_, ?_, ?_⟩
  · rcases moveSnake_alive_cases hsnake hmove halive with ⟨-, rfl⟩ |
      ⟨f, f0, nf, r', nw, -, -, -, rfl⟩
    · show ((moveHead p st.nextDirection :: p :: t).dropLast).head? = _
      cases t <;> rfl
    · rfl
  all_goals
    intro z
    rfl

/-- C6: on a non-terminal tick, eating the (first) food of value `p` on the
new head cell raises the score by exactly `p`, sets the high score to
`max(old high score, new score)`, and grows the snake by one (no tail pop);
with no food on the head cell, score and high score are unchanged and the
length is preserved (head prepended, tail popped). -/
theorem snake_growth_scoring (st st' : GameState) (rng : Rng) (p : Point)
    (t : List Point) (hsnake : st.snake = p :: t)
    (hmove : moveSnake st rng = some st')
    (halive : st'.isGameOver = false) :
    (∀ f rest,
      extractFirstFood (moveHead p st.nextDirection) st.foods
        = some (f, rest) →
      st'.score = st.score + f.points ∧
      st'.highScore = max st.highScore st'.score ∧
      st'.snake = moveHead p st.nextDirection :: st.snake ∧
      st'.snake.length = st.snake.length + 1) ∧
    (extractFirstFood (moveHead p st.nextDirection) st.foods = none →
      st'.score = st.score ∧
      st'.highScore = st.highScore ∧
      st'.snake = moveHead p st.nextDirection :: st.snake.dropLast ∧
      st'.snake.length = st.snake.length) := by
  rcases moveSnake_alive_cases hsnake hmove halive with ⟨hnone, rfl⟩ |
    ⟨f, f0, nf, r', nw, heat, hrep, hwall, rfl⟩
  · constructor
    · intro f rest hsome
      rw [hnone] at hsome
      cases hsome
    · intro _
      refine ⟨rfl, rfl, ?_, ?_⟩
      · rw [hsnake]
        cases t <;> rfl
      · show ((moveHead p st.nextDirection :: p :: t).dropLast).length
          = st.snake.length
        rw [hsnake]
        simp [List.length_dropLast]
  · constructor
    · intro g rest hsome
      rw [heat] at hsome
      simp only [Option.some.injEq, Prod.mk.injEq] at hsome
      obtain ⟨rfl, -⟩ := hsome
      refine ⟨rfl, ?_, ?_, ?_⟩
      · exact max_comm _ _
      · rw [hsnake]
      · rw [hsnake]
        simp
    · intro hnone'
      rw [heat] at hnone'
      cases hnone'

/-- C1 (amended): on a non-terminal tick, exactly one new wall appears
precisely when a food was eaten, the difficulty is not extreme, and the new
score is a positive multiple of `WALL_SPAWN_SCORE` (i.e. lands exactly on a
multiple of 10, not merely crosses one); the wall is placed on a cell
occupied by no snake segment, no food, and no other wall; in every other
case (extreme mode, no food eaten, or new score not an exact positive
multiple of 10) the walls are unchanged. -/
theorem snake_wall_spawn_amended (st st' : GameState) (rng : Rng) (p : Point)
    (t : List Point) (hsnake : st.snake = p :: t)
    (hmove : moveSnake st rng = some st')
    (halive : st'.isGameOver = false) :
    (st.difficulty = Difficulty.extreme → st'.walls = st.walls) ∧
    (extractFirstFood (moveHead p st.nextDirection) st.foods = none →
      st'.walls = st.walls) ∧
    (¬(WALL_SPAWN_SCORE ≤ st'.score ∧
        st'.score % WALL_SPAWN_SCORE = 0) → st'.walls = st.walls) ∧
    (st.difficulty ≠ Difficulty.extreme →
      WALL_SPAWN_SCORE ≤ st'.score → st'.score % WALL_SPAWN_SCORE = 0 →
      (∃ f rest, extractFirstFood (moveHead p st.nextDirection) st.foods
        = some (f, rest)) →
      ∃ w, st'.walls = st.walls ++ [w] ∧
        occupied st'.snake st'.foods st.walls w = false) := by
  rcases moveSnake_alive_cases hsnake hmove halive with ⟨hnone, rfl⟩ |
    ⟨f, f0, nf, r', nw, heat, hrep, hwall, rfl⟩
  · refine ⟨fun _ => rfl, fun _ => rfl, fun _ => rfl, fun _ _ _ hex => ?_⟩
    obtain ⟨g, rest, hg⟩ := hex
    rw [hnone] at hg
    cases hg
  · rcases spawnWall_cases hwall with ⟨hncond, rfl⟩ | ⟨hcond, w, rfl, hfree⟩
    · refine ⟨fun _ => rfl, fun _ => rfl, fun _ => rfl,
        fun hd hge hmod _ => ?_⟩
      exact absurd ⟨hd, hge, hmod⟩ hncond
    · refine ⟨fun hd => absurd hd hcond.1, fun hn => ?_, fun hn => ?_,
        fun _ _ _ _ => ⟨w, rfl, hfree⟩⟩
      · rw [heat] at hn
        cases hn
      · exact absurd ⟨hcond.2.1, hcond.2.2⟩ hn

end SnakeGame

namespace SnakeGame

lemma opposite_opposite (d : Direction) : opposite (opposite d) = d := by
  cases d <;> rfl

lemma ne_opposite_self (d : Direction) : d ≠ opposite d := by
  cases d <;> simp [opposite]

/-- A successful tick preserves the no-reversal invariant. -/
lemma noReversal_tick {st st' : GameState} {rng : Rng}
    (hmove : moveSnake st rng = some st') (hinv : noReversal st) :
    noReversal st' := by
  obtain ⟨hnd, hd⟩ := moveSnake_dirs hmove
  unfold noReversal at hinv ⊢
  rcases hd with h | h
  · rw [hnd, h]
    exact hinv
  · rw [hnd, h]
    exact ne_opposite_self _

/-- The direction-input guard preserves the no-reversal invariant. -/
lemma noReversal_input (s : GameState) (d : Direction)
    (hinv : noReversal s) : noReversal (handleDirectionInput s d) := by
  unfold handleDirectionInput
  split_ifs with h1 h2
  · exact hinv
  · unfold noReversal
    intro hcontra
    have hc : d = opposite s.direction := hcontra
    exact h2 (by rw [hc, opposite_opposite])
  · exact hinv

/-- Every reachable state satisfies the no-reversal invariant. -/
lemma reachable_noReversal {f0 : Food} {s : GameState}
    (h : Reachable f0 s) : noReversal s := by
  induction h with
  | init => exact fun hc => Direction.noConfusion hc
  | tick s s' rng _ _ _ hmove ih => exact noReversal_tick hmove ih
  | input s d _ ih => exact noReversal_input s d ih
  | reset s _ _ => exact fun hc => Direction.noConfusion hc
  | diff s d _ _ => exact fun hc => Direction.noConfusion hc
  | pause s _ ih => exact ih
  | color s c _ ih => exact ih

/-- A successful tick from a live state preserves the food-count
invariant. -/
lemma foodInv_tick {st st' : GameState} {rng : Rng}
    (h0 : st.isGameOver = false)
    (hinv : foodInv st) (hmove : moveSnake st rng = some st') :
    foodInv st' := by
  obtain ⟨p, t, hsnake⟩ := moveSnake_snake_cons hmove
  by_cases hg : st'.isGameOver = true
  · rw [moveSnake_gameOver_frame hmove h0 hg]
    exact hinv
  · have halive : st'.isGameOver = false := by
      cases hb : st'.isGameOver
      · rfl
      · exact absurd hb hg
    rcases moveSnake_alive_cases hsnake hmove halive with ⟨-, rfl⟩ |
      ⟨f, fs0, nf, r', nw, heat, hrep, hwall, rfl⟩
    · exact hinv
    · unfold foodInv at hinv ⊢
      have hlen0 : fs0.length + 1 = st.foods.length :=
        extractFirstFood_length heat
      obtain ⟨hge, hlt⟩ := replenishFoods_length hrep
      show nf.length = _
      by_cases hc : st.score + f.points < MULTI_FOOD_SCORE
      · have h1 := hlt hc
        have hsc : st.score < MULTI_FOOD_SCORE := by omega
        rw [if_pos hsc] at hinv
        rw [if_pos hc]
        omega
      · have hc' : MULTI_FOOD_SCORE ≤ st.score + f.points := by omega
        have h1 := hge hc'
        rw [if_neg hc]
        simp only [MULTI_FOOD_SCORE] at h1 hinv hc' ⊢
        have hmono : st.score / 5 ≤ (st.score + f.points) / 5 :=
          Nat.div_le_div_right (by omega)
        by_cases hsc : st.score < 5
        · rw [if_pos hsc] at hinv
          have hdiv : 1 ≤ (st.score + f.points) / 5 :=
            (Nat.one_le_div_iff (by norm_num)).mpr hc'
          omega
        · rw [if_neg hsc] at hinv
          omega

/-- Every reachable state satisfies the food-count invariant. -/
lemma reachable_foodInv {f0 : Food} {s : GameState} (h : Reachable f0 s) :
    foodInv s := by
  induction h with
  | init =>
    unfold foodInv initialStateWith MULTI_FOOD_SCORE
    norm_num
  | tick s s' rng _ hgo _ hmove ih => exact foodInv_tick hgo ih hmove
  | input s d _ ih =>
    unfold handleDirectionInput
    split_ifs <;> exact ih
  | reset s _ _ =>
    unfold foodInv resetGame initialStateWith MULTI_FOOD_SCORE
    norm_num
  | diff s d _ _ =>
    unfold foodInv handleDifficultyChange initialStateWith MULTI_FOOD_SCORE
    norm_num
  | pause s _ ih => exact ih
  | color s c _ ih => exact ih

end SnakeGame

namespace SnakeGame

/-- C9: in every state reachable from the initial state via ticks,
direction inputs, resets, difficulty changes, pause toggles, and color
changes, `nextDirection` is never the exact opposite of the committed
`direction`: inputs opposite to `direction` are rejected, and a committed
tick sets `direction` equal to the `nextDirection` it applied. -/
theorem snake_no_reversal_invariant (f0 : Food) (s : GameState)
    (h : Reachable f0 s) : s.nextDirection ≠ opposite s.direction :=
  reachable_noReversal h

/-- Witness for `snake_no_reversal_invariant`: the state reached from the
initial state by one DOWN input. -/
theorem snake_no_reversal_invariant_witness :
    (handleDirectionInput (initialStateWith ⟨3, 3, FoodType.apple, 1⟩)
        Direction.DOWN).nextDirection ≠
      opposite (handleDirectionInput (initialStateWith ⟨3, 3, FoodType.apple, 1⟩)
        Direction.DOWN).direction :=
  snake_no_reversal_invariant _ _ (Reachable.input _ _ Reachable.init)

/-- C3: after the food-replenishment step of a reachable non-terminal tick
that ate a food: with new score at least `MULTI_FOOD_SCORE` the number of
simultaneous foods equals `min(3, floor(score / MULTI_FOOD_SCORE))`; below
it, exactly one replacement food is created (food count preserved
one-for-one). -/
theorem snake_food_count (f0 : Food) (st st' : GameState) (rng : Rng)
    (p : Point) (t : List Point) (f : Food) (rest : List Food)
    (hreach : Reachable f0 st)
    (hsnake : st.snake = p :: t)
    (hmove : moveSnake st rng = some st')
    (halive : st'.isGameOver = false)
    (_heat : extractFirstFood (moveHead p st.nextDirection) st.foods
      = some (f, rest)) :
    (MULTI_FOOD_SCORE ≤ st'.score →
      st'.foods.length = min 3 (st'.score / MULTI_FOOD_SCORE)) ∧
    (st'.score < MULTI_FOOD_SCORE →
      st'.foods.length = st.foods.length) := by
  have h0 : st.isGameOver = false := by
    rcases moveSnake_alive_cases hsnake hmove halive with ⟨-, rfl⟩ |
      ⟨g, g0, nf, r', nw, -, -, -, rfl⟩ <;> exact halive
  have hinv := reachable_foodInv hreach
  have hinv' := foodInv_tick h0 hinv hmove
  have hscore : st.score ≤ st'.score := by
    rcases moveSnake_alive_cases hsnake hmove halive with ⟨-, rfl⟩ |
      ⟨g, g0, nf, r', nw, -, -, -, rfl⟩
    · exact le_refl _
    · exact Nat.le_add_right _ _
  unfold foodInv at hinv hinv'
  constructor
  · intro hge
    rwa [if_neg (by omega)] at hinv'
  · intro hlt
    rw [if_pos hlt] at hinv'
    rw [if_pos (by omega : st.score < MULTI_FOOD_SCORE)] at hinv
    omega

end SnakeGame

namespace SnakeGame

lemma c3_eval : moveSnake c3St c3Rng = some c3Res := by
  norm_num [moveSnake, c3St, c3Rng, c3Res, initialStateWith, INITIAL_SNAKE,
    moveHead, GRID_SIZE, extractFirstFood, replenishFoods, MULTI_FOOD_SCORE,
    topUpFoods, createFood, getRandomPosition, occupied, getRandomFoodType,
    FOOD_POINTS, spawnWall, WALL_SPAWN_SCORE, createWall, Int.tmod]

/-- Witness for `snake_food_count`: the first tick of the game eats the
initial apple; the new score 1 is below `MULTI_FOOD_SCORE` and the food
count stays 1. -/
theorem snake_food_count_witness :
    (MULTI_FOOD_SCORE ≤ c3Res.score →
      c3Res.foods.length = min 3 (c3Res.score / MULTI_FOOD_SCORE)) ∧
    (c3Res.score < MULTI_FOOD_SCORE →
      c3Res.foods.length = c3St.foods.length) :=
  snake_food_count ⟨11, 10, FoodType.apple, 1⟩ c3St c3Res c3Rng ⟨10, 10⟩ []
    ⟨11, 10, FoodType.apple, 1⟩ [] Reachable.init rfl c3_eval rfl (by decide)

lemma wallCex_eval : moveSnake wallCexSt wallCexRng = some wallCexRes := by
  norm_num [moveSnake, wallCexSt, wallCexRng, wallCexRes, moveHead, GRID_SIZE,
    extractFirstFood, replenishFoods, MULTI_FOOD_SCORE, topUpFoods, createFood,
    getRandomPosition, occupied, getRandomFoodType, FOOD_POINTS, spawnWall,
    WALL_SPAWN_SCORE, createWall, Int.tmod]

/-- C1 counterexample: a tick at score 9 that eats a 3-point meat takes the
score to 12, crossing the positive multiple 10 (9 < 10 ≤ 12), outside
extreme mode — yet no wall is added, because the source spawns a wall only
when the new score lands exactly on a multiple of 10. -/
theorem snake_wall_spawn_cex :
    moveSnake wallCexSt wallCexRng = some wallCexRes ∧
    wallCexSt.score = 9 ∧ wallCexRes.score = 12 ∧
    wallCexSt.score < 10 ∧ 10 ≤ wallCexRes.score ∧
    wallCexSt.difficulty ≠ Difficulty.extreme ∧
    wallCexRes.walls = wallCexSt.walls :=
  ⟨wallCex_eval, rfl, rfl, by decide, by decide, by decide, rfl⟩

lemma wall_eval : moveSnake wallSt wallRng = some wallRes := by
  norm_num [moveSnake, wallSt, wallRng, wallRes, moveHead, GRID_SIZE,
    extractFirstFood, replenishFoods, MULTI_FOOD_SCORE, topUpFoods, createFood,
    getRandomPosition, occupied, getRandomFoodType, FOOD_POINTS, spawnWall,
    WALL_SPAWN_SCORE, createWall, Int.tmod]
  decide

/-- Witness for `snake_wall_spawn_amended`: eating the apple at score 9
lands exactly on 10 and one wall appears on a free cell. -/
theorem snake_wall_spawn_amended_witness :
    ∃ w, wallRes.walls = wallSt.walls ++ [w] ∧
      occupied wallRes.snake wallRes.foods wallSt.walls w = false := by
  obtain ⟨-, -, -, h4⟩ := snake_wall_spawn_amended wallSt wallRes wallRng
    ⟨10, 10⟩ [] rfl wall_eval rfl
  exact h4 (by decide) (by decide) (by decide)
    ⟨⟨11, 10, FoodType.apple, 1⟩, [], by decide⟩

/-- Witness for `snake_wrap_around`: the head at `(19, 10)` moving RIGHT
ends at `(0, 10)`. -/
theorem snake_wrap_around_witness :
    wrapRes.snake.head? = some (moveHead ⟨19, 10⟩ Direction.RIGHT) ∧
    moveHead ⟨GRID_SIZE - 1, 10⟩ Direction.RIGHT = ⟨0, 10⟩ := by
  obtain ⟨h1, h2, -, -, -⟩ := snake_wrap_around wrapSt wrapRes ⟨[], []⟩
    ⟨19, 10⟩ [] (by decide) rfl (by decide) rfl
  exact ⟨h1, h2 10⟩

lemma growth_eval : moveSnake growthSt growthRng = some growthRes := by
  norm_num [moveSnake, growthSt, growthRng, growthRes, moveHead, GRID_SIZE,
    extractFirstFood, replenishFoods, MULTI_FOOD_SCORE, topUpFoods, createFood,
    getRandomPosition, occupied, getRandomFoodType, FOOD_POINTS, spawnWall,
    WALL_SPAWN_SCORE, createWall, Int.tmod]

/-- Witness for `snake_growth_scoring`: eating the 2-point banana adds 2 to
the score and 1 to the length. -/
theorem snake_growth_scoring_witness :
    growthRes.score = growthSt.score + 2 ∧
    growthRes.snake.length = growthSt.snake.length + 1 := by
  obtain ⟨he, -⟩ := snake_growth_scoring growthSt growthRes growthRng
    ⟨4, 4⟩ [] rfl growth_eval rfl
  obtain ⟨h1, -, -, h4⟩ := he ⟨4, 5, FoodType.banana, 2⟩ [] (by decide)
  exact ⟨h1, h4⟩

/-- Witness for `snake_terminal_frame`: running into a wall flips only the
game-over flag. -/
theorem snake_terminal_frame_witness :
    moveSnake frameSt ⟨[], []⟩ = some { frameSt with isGameOver := true } := by
  have hmove : moveSnake frameSt ⟨[], []⟩ = some frameRes := by decide
  have h := snake_terminal_frame frameSt frameRes ⟨[], []⟩ hmove
    (by decide) (by decide)
  rw [hmove, h]

end SnakeGame
